import Mathlib

/-!
Verification of the publish-and-verify end-to-end checker implemented in
`src/tests/e2e_workflow.py`.

The script publishes one synthetic agent event to a Pub/Sub topic and then
polls a BigQuery table until a row with the event's unique `event_id`
appears, the store signals a terminal condition, or a fixed wall-clock
timeout elapses.

Embedding choices:
* Timestamps are rational numbers of seconds.  A payload's `timestamp`
  field is an ISO string in the source; it is modelled by the value
  `datetime.fromisoformat` would produce on it — `some t` when it parses,
  `none` when `fromisoformat` would raise `ValueError`/`TypeError`.
  A retrieved row's `timestamp` is `none` when the stored value is absent
  or `NULL`, in which case `retrieved_row["timestamp"].replace(...)`
  raises.
* The external BigQuery store is an oracle mapping each poll-attempt index
  to the outcome of that attempt's query; the external Pub/Sub channel is
  an oracle describing whether and after what delay it acknowledges.
* Exceptions are modelled with `Except`; the `try/except` blocks of the
  source become explicit handler functions.
* Wall-clock time advances only at the fixed `time.sleep` between poll
  attempts (each query is modelled as instantaneous), so elapsed time at
  attempt `k` is `POLLING_INTERVAL_SECONDS * k`.
-/

namespace E2E

/-- Overall polling deadline, `POLLING_TIMEOUT_SECONDS = 60` in the source. -/
def POLLING_TIMEOUT_SECONDS : Nat := 60

/-- Fixed sleep between poll attempts, `POLLING_INTERVAL_SECONDS = 5`. -/
def POLLING_INTERVAL_SECONDS : Nat := 5

/-- Ceiling on the publish acknowledgment wait: `future.result(timeout=30)`. -/
def PUBLISH_ACK_TIMEOUT_SECONDS : Nat := 30

/-- Timestamp tolerance used in the comparison, the literal `2` in
`time_difference_seconds < 2`. -/
def TIMESTAMP_TOLERANCE_SECONDS : ℚ := 2

deriving instance DecidableEq for Except

/-- The event payload built by `generate_sample_payload`: the four fields
read by `verify_event_in_bigquery` plus the auxiliary `event_type` and
`data` fields, the latter modelled opaquely by its serialized form. -/
structure Payload where
  event_id : String
  agent_id : String
  session_id : String
  timestamp : Option ℚ
  event_type : String
  data : String
deriving DecidableEq

/-- A row of the result set of the lookup
`SELECT event_id, agent_id, session_id, timestamp … WHERE event_id = … LIMIT 1`. -/
structure Row where
  event_id : String
  agent_id : String
  session_id : String
  timestamp : Option ℚ
deriving DecidableEq

/-- Outcome of one poll attempt's store interaction
(`bigquery_client.query` + `query_job.result(timeout=30)` + row fetch):
a result set with zero rows or with a first row, the
`google.api_core.exceptions.NotFound` exception, or any other exception. -/
inductive QueryOutcome where
  | rows (found : Option Row)
  | notFoundExn
  | otherExn
deriving DecidableEq

/-- Python exceptions that can arise inside the polling loop's try block:
`NotFound` from the query, `ValueError` from `datetime.fromisoformat`,
`KeyError`/`AttributeError` from reading the retrieved timestamp, and any
other query error. -/
inductive PyExn where
  | notFound
  | valueError
  | keyError
  | queryError
deriving DecidableEq

/-- What one iteration of the polling loop decides: return a boolean from
the function, or fall through to the sleep-and-retry tail of the loop. -/
inductive AttemptOutcome where
  | ret (b : Bool)
  | continue_
deriving DecidableEq

/-- The field comparison at lines 157–163 of the source: exact equality of
`event_id`, `agent_id`, `session_id` and absolute timestamp difference
strictly below the tolerance. -/
def rowMatches (orig : Payload) (row : Row) (ot rt : ℚ) : Bool :=
  row.event_id == orig.event_id
    && row.agent_id == orig.agent_id
    && row.session_id == orig.session_id
    && decide (|rt - ot| < TIMESTAMP_TOLERANCE_SECONDS)

/-- The try block of one poll attempt (source lines 135–173): run the query
(possibly raising), and if `total_rows > 0` parse the original timestamp,
read the retrieved timestamp, and return the comparison verdict; with zero
rows fall through (`.ok none`) to the retry tail. -/
def tryBody (orig : Payload) (q : QueryOutcome) : Except PyExn (Option Bool) :=
  match q with
  | .notFoundExn => .error .notFound
  | .otherExn => .error .queryError
  | .rows none => .ok none
  | .rows (some row) =>
    match orig.timestamp with
    | none => .error .valueError
    | some ot =>
      match row.timestamp with
      | none => .error .keyError
      | some rt => .ok (some (rowMatches orig row ot rt))

/-- Which exceptions the first handler, `except exceptions.NotFound`, catches. -/
def catchesNotFound : PyExn → Bool
  | .notFound => true
  | _ => false

/-- Which exceptions the second handler, `except Exception`, catches: every
exception modelled here derives from `Exception`. -/
def catchesException : PyExn → Bool := fun _ => true

/-- One full iteration of the polling loop: the try block wrapped in its two
handlers.  `except exceptions.NotFound` returns `False`; `except Exception`
logs and falls through to the retry tail; an exception caught by neither
would propagate. -/
def attemptStep (orig : Payload) (q : QueryOutcome) : Except PyExn AttemptOutcome :=
  match tryBody orig q with
  | .ok (some b) => .ok (.ret b)
  | .ok none => .ok .continue_
  | .error e =>
    if catchesNotFound e then .ok (.ret false)
    else if catchesException e then .ok .continue_
    else .error e

/-- The observable outcome of `verify_event_in_bigquery`: the returned
boolean, the number of store queries made, and the number of
`time.sleep(POLLING_INTERVAL_SECONDS)` calls executed. -/
structure VerifyResult where
  result : Bool
  attempts : Nat
  sleeps : Nat
deriving DecidableEq

/-- Number of loop iterations the guard can admit:
`POLLING_TIMEOUT_SECONDS / POLLING_INTERVAL_SECONDS = 12`, since elapsed
time at attempt `k` is `POLLING_INTERVAL_SECONDS * k`. -/
def maxPollAttempts : Nat := POLLING_TIMEOUT_SECONDS / POLLING_INTERVAL_SECONDS

/-- The polling loop from attempt index `k` on (source lines 134–186): the
guard `time.time() - start_time < POLLING_TIMEOUT_SECONDS` with elapsed time
`POLLING_INTERVAL_SECONDS * k`; inside, one attempt step, returning on
`.ret` and sleeping then recursing on `.continue_`; on a false guard,
return `False` (line 189).  The structural argument `fuel` is the remaining
attempt budget `maxPollAttempts - k`; along every call chain from
`verify_event_in_bigquery` the invariant `k + fuel = maxPollAttempts` holds,
so `fuel = 0` coincides with a false guard and the two exits agree. -/
def verifyGo (orig : Payload) (store : Nat → QueryOutcome) :
    Nat → Nat → Except PyExn VerifyResult
  | k, 0 => .ok ⟨false, k, k⟩
  | k, fuel + 1 =>
    if POLLING_INTERVAL_SECONDS * k < POLLING_TIMEOUT_SECONDS then
      match attemptStep orig (store k) with
      | .ok (.ret b) => .ok ⟨b, k + 1, k⟩
      | .ok .continue_ => verifyGo orig store (k + 1) fuel
      | .error e => .error e
    else
      .ok ⟨false, k, k⟩

/-- `verify_event_in_bigquery(bigquery_client, event_id, original_payload)`:
poll the store from attempt 0 with the full attempt budget. -/
def verify_event_in_bigquery (orig : Payload) (store : Nat → QueryOutcome) :
    Except PyExn VerifyResult :=
  verifyGo orig store 0 maxPollAttempts

/-- Behaviour of the Pub/Sub channel for the single `publish` call: reject
the send (`GoogleAPICallError`), or acknowledge with a message id after a
given delay in seconds. -/
inductive ChannelBehavior where
  | reject
  | ack (delay : Nat) (message_id : String)
deriving DecidableEq

/-- The exceptions `publish_event` re-raises. -/
inductive PublishError where
  | googleAPICallError
  | timeoutError
deriving DecidableEq

/-- `publish_event` (source lines 73–101): wait at most
`PUBLISH_ACK_TIMEOUT_SECONDS` for the acknowledgment; both the
`GoogleAPICallError` and the `TimeoutError` handlers log and re-raise, so
every failure propagates to the caller. -/
def publish_event (ch : ChannelBehavior) : Except PublishError String :=
  match ch with
  | .reject => .error .googleAPICallError
  | .ack d id =>
    if d ≤ PUBLISH_ACK_TIMEOUT_SECONDS then .ok id else .error .timeoutError

/-- Whether the two GCP clients initialize successfully in `main`. -/
inductive InitOutcome where
  | ok
  | fail
deriving DecidableEq

/-- `main` (source lines 192–232) as a function to the process exit code:
client-initialization failure exits 1; a publish error is caught and exits 1;
otherwise the exit code is 0 when `verify_event_in_bigquery` returns `True`
and 1 when it returns `False`; an exception escaping verification would
terminate the interpreter with a non-zero status. -/
def main (client_init : InitOutcome) (ch : ChannelBehavior) (orig : Payload)
    (store : Nat → QueryOutcome) : Nat :=
  match client_init with
  | .fail => 1
  | .ok =>
    match publish_event ch with
    | .error _ => 1
    | .ok _ =>
      match verify_event_in_bigquery orig store with
      | .ok r => if r.result then 0 else 1
      | .error _ => 1

/-- The loop guard at attempt `k`, in closed form: with the source's
constants the loop body runs exactly for attempt indices below 12. -/
theorem loopGuard_iff (k : Nat) :
    POLLING_INTERVAL_SECONDS * k < POLLING_TIMEOUT_SECONDS ↔ k < 12 := by
  simp only [POLLING_INTERVAL_SECONDS, POLLING_TIMEOUT_SECONDS]
  omega

/-- The attempt budget in closed form. -/
theorem maxPollAttempts_eq : maxPollAttempts = 12 := rfl

/-- When the deadline has passed, the loop exits returning `False` without
querying or sleeping again, whatever budget remains. -/
theorem verifyGo_deadline (orig : Payload) (store : Nat → QueryOutcome) (k fuel : Nat)
    (h : ¬ POLLING_INTERVAL_SECONDS * k < POLLING_TIMEOUT_SECONDS) :
    verifyGo orig store k fuel = .ok ⟨false, k, k⟩ := by
  cases fuel with
  | zero => rfl
  | succ n => rw [verifyGo]; simp [h]

/-- An attempt that decides a boolean returns it from the function at once:
`k + 1` queries made in total, `k` sleeps, none after the decision. -/
theorem verifyGo_ret (orig : Payload) (store : Nat → QueryOutcome) (k fuel : Nat) (b : Bool)
    (h : POLLING_INTERVAL_SECONDS * k < POLLING_TIMEOUT_SECONDS)
    (ha : attemptStep orig (store k) = .ok (.ret b)) :
    verifyGo orig store k (fuel + 1) = .ok ⟨b, k + 1, k⟩ := by
  rw [verifyGo]
  simp [h, ha]

/-- An attempt that falls through sleeps once and re-enters the loop at the
next attempt index. -/
theorem verifyGo_continue (orig : Payload) (store : Nat → QueryOutcome) (k fuel : Nat)
    (h : POLLING_INTERVAL_SECONDS * k < POLLING_TIMEOUT_SECONDS)
    (ha : attemptStep orig (store k) = .ok .continue_) :
    verifyGo orig store k (fuel + 1) = verifyGo orig store (k + 1) fuel := by
  rw [verifyGo]
  simp [h, ha]

/-- An attempt whose exception escapes both handlers would propagate. -/
theorem verifyGo_error (orig : Payload) (store : Nat → QueryOutcome) (k fuel : Nat) (e : PyExn)
    (h : POLLING_INTERVAL_SECONDS * k < POLLING_TIMEOUT_SECONDS)
    (ha : attemptStep orig (store k) = .error e) :
    verifyGo orig store k (fuel + 1) = .error e := by
  rw [verifyGo]
  simp [h, ha]

/-- If every attempt before `k` fell through to the retry tail, the loop
reaches attempt `k` with budget `maxPollAttempts - k`. -/
theorem verifyGo_reach (orig : Payload) (store : Nat → QueryOutcome) (k : Nat)
    (hk : k ≤ 12)
    (hc : ∀ j, j < k → attemptStep orig (store j) = .ok .continue_) :
    verify_event_in_bigquery orig store = verifyGo orig store k (12 - k) := by
  induction k with
  | zero => rfl
  | succ n ih =>
    have hn : verify_event_in_bigquery orig store = verifyGo orig store n (12 - n) :=
      ih (Nat.le_of_succ_le hk) (fun j hj => hc j (Nat.lt_succ_of_lt hj))
    have hfuel : 12 - n = (12 - (n + 1)) + 1 := by omega
    rw [hn, hfuel]
    exact verifyGo_continue orig store n (12 - (n + 1))
      ((loopGuard_iff n).mpr (Nat.lt_of_succ_le hk)) (hc n (Nat.lt_succ_self n))

/-- A zero-row result set falls through to the retry tail of the loop. -/
theorem attemptStep_rows_none (orig : Payload) :
    attemptStep orig (.rows none) = .ok .continue_ := rfl

/-- The `NotFound` exception is caught by its dedicated handler, which
returns `False` from the function. -/
theorem attemptStep_notFound (orig : Payload) :
    attemptStep orig .notFoundExn = .ok (.ret false) := rfl

/-- Any other query exception is caught by the generic `except Exception`
handler, which logs and falls through to the retry tail. -/
theorem attemptStep_otherExn (orig : Payload) :
    attemptStep orig .otherExn = .ok .continue_ := rfl

/-- With both timestamps available, an attempt that finds a row returns the
field-comparison verdict from the function. -/
theorem attemptStep_found (orig : Payload) (row : Row) (ot rt : ℚ)
    (hot : orig.timestamp = some ot) (hrt : row.timestamp = some rt) :
    attemptStep orig (.rows (some row)) = .ok (.ret (rowMatches orig row ot rt)) := by
  simp [attemptStep, tryBody, hot, hrt]

/-- When either timestamp is unavailable, the try block raises
(`ValueError` from `fromisoformat`, or `KeyError`/`AttributeError` on the
retrieved value) and the generic handler falls through to the retry tail. -/
theorem attemptStep_found_raise (orig : Payload) (row : Row)
    (hbad : orig.timestamp = none ∨ row.timestamp = none) :
    attemptStep orig (.rows (some row)) = .ok .continue_ := by
  rcases hbad with h | h
  · simp [attemptStep, tryBody, h, catchesNotFound, catchesException]
  · cases hot : orig.timestamp <;>
      simp [attemptStep, tryBody, hot, h, catchesNotFound, catchesException]

/-- Both handlers together catch every exception the loop body can raise,
so every attempt produces an outcome rather than propagating. -/
theorem attemptStep_isOk (orig : Payload) (q : QueryOutcome) :
    ∃ a, attemptStep orig q = .ok a := by
  cases q with
  | rows found =>
    cases found with
    | none => exact ⟨_, rfl⟩
    | some row =>
      cases hot : orig.timestamp with
      | none => exact ⟨_, attemptStep_found_raise orig row (Or.inl hot)⟩
      | some ot =>
        cases hrt : row.timestamp with
        | none => exact ⟨_, attemptStep_found_raise orig row (Or.inr hrt)⟩
        | some rt => exact ⟨_, attemptStep_found orig row ot rt hot hrt⟩
  | notFoundExn => exact ⟨_, rfl⟩
  | otherExn => exact ⟨_, rfl⟩

/-- The polling loop always produces a boolean verdict, whatever the store
does on each attempt. -/
theorem verifyGo_isOk (orig : Payload) (store : Nat → QueryOutcome) :
    ∀ fuel k, ∃ r, verifyGo orig store k fuel = .ok r := by
  intro fuel
  induction fuel with
  | zero => intro k; exact ⟨_, rfl⟩
  | succ n ih =>
    intro k
    by_cases h : POLLING_INTERVAL_SECONDS * k < POLLING_TIMEOUT_SECONDS
    · obtain ⟨a, ha⟩ := attemptStep_isOk orig (store k)
      cases a with
      | ret b => exact ⟨_, verifyGo_ret orig store k n b h ha⟩
      | continue_ =>
        rw [verifyGo_continue orig store k n h ha]
        exact ih (k + 1)
    · exact ⟨_, verifyGo_deadline orig store k (n + 1) h⟩

/-- The comparison verdict is `true` when the three identifiers agree and
the timestamps differ by strictly less than the tolerance. -/
theorem rowMatches_true (orig : Payload) (row : Row) (ot rt : ℚ)
    (he : row.event_id = orig.event_id) (ha : row.agent_id = orig.agent_id)
    (hs : row.session_id = orig.session_id)
    (ht : |rt - ot| < TIMESTAMP_TOLERANCE_SECONDS) :
    rowMatches orig row ot rt = true := by
  simp [rowMatches, he, ha, hs, ht]

/-- The comparison verdict is `false` as soon as one identifier differs or
the timestamp difference reaches the tolerance. -/
theorem rowMatches_false (orig : Payload) (row : Row) (ot rt : ℚ)
    (h : row.event_id ≠ orig.event_id ∨ row.agent_id ≠ orig.agent_id
      ∨ row.session_id ≠ orig.session_id
      ∨ ¬ |rt - ot| < TIMESTAMP_TOLERANCE_SECONDS) :
    rowMatches orig row ot rt = false := by
  rcases h with h | h | h | h <;> simp [rowMatches, h]

/-- One attempt reads only the four compared fields of the original
payload, never `event_type` or `data`. -/
theorem attemptStep_congr (p1 p2 : Payload) (q : QueryOutcome)
    (he : p1.event_id = p2.event_id) (ha : p1.agent_id = p2.agent_id)
    (hs : p1.session_id = p2.session_id) (ht : p1.timestamp = p2.timestamp) :
    attemptStep p1 q = attemptStep p2 q := by
  cases q with
  | rows found =>
    cases found with
    | none => rfl
    | some row => simp only [attemptStep, tryBody, rowMatches, he, ha, hs, ht]
  | notFoundExn => rfl
  | otherExn => rfl

/-- The whole loop reads only the four compared fields of the original
payload. -/
theorem verifyGo_congr (p1 p2 : Payload) (store : Nat → QueryOutcome)
    (he : p1.event_id = p2.event_id) (ha : p1.agent_id = p2.agent_id)
    (hs : p1.session_id = p2.session_id) (ht : p1.timestamp = p2.timestamp) :
    ∀ fuel k, verifyGo p1 store k fuel = verifyGo p2 store k fuel := by
  intro fuel
  induction fuel with
  | zero => intro k; rfl
  | succ n ih =>
    intro k
    by_cases h : POLLING_INTERVAL_SECONDS * k < POLLING_TIMEOUT_SECONDS
    · obtain ⟨a, ha2⟩ := attemptStep_isOk p2 (store k)
      have ha1 : attemptStep p1 (store k) = .ok a := by
        rw [attemptStep_congr p1 p2 (store k) he ha hs ht, ha2]
      cases a with
      | ret b =>
        rw [verifyGo_ret p1 store k n b h ha1, verifyGo_ret p2 store k n b h ha2]
      | continue_ =>
        rw [verifyGo_continue p1 store k n h ha1,
          verifyGo_continue p2 store k n h ha2]
        exact ih (k + 1)
    · rw [verifyGo_deadline p1 store k (n + 1) h,
        verifyGo_deadline p2 store k (n + 1) h]

/-- C1: a poll attempt that finds a row and can evaluate the comparison is
terminal — if the row's `event_id`, `agent_id`, or `session_id` differs from
the original event, or the timestamp difference is not within tolerance,
`verify_event_in_bigquery` returns `False` on that same poll attempt, with
no further sleep (`sleeps = k`, the sleeps of the earlier attempts only) and
no further poll attempt (`attempts = k + 1`); whereas an attempt that finds
no row falls through to sleep and retry. -/
theorem c1_found_mismatch_returns_false_immediately
    (orig : Payload) (store : Nat → QueryOutcome) (k : Nat) (row : Row) (ot rt : ℚ)
    (hg : POLLING_INTERVAL_SECONDS * k < POLLING_TIMEOUT_SECONDS)
    (hprev : ∀ j, j < k → attemptStep orig (store j) = .ok .continue_)
    (hrow : store k = .rows (some row))
    (hot : orig.timestamp = some ot) (hrt : row.timestamp = some rt)
    (hmis : row.event_id ≠ orig.event_id ∨ row.agent_id ≠ orig.agent_id
      ∨ row.session_id ≠ orig.session_id
      ∨ ¬ |rt - ot| < TIMESTAMP_TOLERANCE_SECONDS) :
    verify_event_in_bigquery orig store = .ok ⟨false, k + 1, k⟩
      ∧ attemptStep orig (.rows none) = .ok .continue_ := by
  refine ⟨?_, rfl⟩
  have hk : k < 12 := (loopGuard_iff k).mp hg
  have hstep : attemptStep orig (store k) = .ok (.ret false) := by
    rw [hrow, attemptStep_found orig row ot rt hot hrt,
      rowMatches_false orig row ot rt hmis]
  rw [verifyGo_reach orig store k (Nat.le_of_lt hk) hprev,
    show 12 - k = (12 - (k + 1)) + 1 by omega]
  exact verifyGo_ret orig store k (12 - (k + 1)) false hg hstep

/-- Witness for C1: the second poll finds a row whose `agent_id` differs;
verification returns `False` after exactly two queries and one sleep. -/
theorem c1_witness :
    verify_event_in_bigquery ⟨"e1", "a1", "s1", some 100, "t", "d"⟩
        (fun j => if j = 1 then .rows (some ⟨"e1", "aX", "s1", some 100⟩)
          else .rows none)
      = .ok ⟨false, 2, 1⟩ :=
  (c1_found_mismatch_returns_false_immediately
    ⟨"e1", "a1", "s1", some 100, "t", "d"⟩
    (fun j => if j = 1 then .rows (some ⟨"e1", "aX", "s1", some 100⟩)
      else .rows none)
    1 ⟨"e1", "aX", "s1", some 100⟩ 100 100
    (by decide) (by decide) rfl rfl rfl
    (Or.inr (Or.inl (by decide)))).1

/-- C2: a poll attempt whose lookup yields a row with all three identifiers
exactly equal to the original's and a timestamp within strictly less than
the 2-second tolerance returns `True` on that same attempt. -/
theorem c2_found_match_returns_true
    (orig : Payload) (store : Nat → QueryOutcome) (k : Nat) (row : Row) (ot rt : ℚ)
    (hg : POLLING_INTERVAL_SECONDS * k < POLLING_TIMEOUT_SECONDS)
    (hprev : ∀ j, j < k → attemptStep orig (store j) = .ok .continue_)
    (hrow : store k = .rows (some row))
    (hot : orig.timestamp = some ot) (hrt : row.timestamp = some rt)
    (he : row.event_id = orig.event_id) (ha : row.agent_id = orig.agent_id)
    (hs : row.session_id = orig.session_id)
    (ht : |rt - ot| < TIMESTAMP_TOLERANCE_SECONDS) :
    verify_event_in_bigquery orig store = .ok ⟨true, k + 1, k⟩ := by
  have hk : k < 12 := (loopGuard_iff k).mp hg
  have hstep : attemptStep orig (store k) = .ok (.ret true) := by
    rw [hrow, attemptStep_found orig row ot rt hot hrt,
      rowMatches_true orig row ot rt he ha hs ht]
  rw [verifyGo_reach orig store k (Nat.le_of_lt hk) hprev,
    show 12 - k = (12 - (k + 1)) + 1 by omega]
  exact verifyGo_ret orig store k (12 - (k + 1)) true hg hstep

/-- Witness for C2: the third poll finds an identical row whose timestamp
differs by 0.1 seconds; verification returns `True` after three queries. -/
theorem c2_witness :
    verify_event_in_bigquery ⟨"e1", "a1", "s1", some 100, "t", "d"⟩
        (fun j => if j = 2 then .rows (some ⟨"e1", "a1", "s1", some (100 + 1/10)⟩)
          else .rows none)
      = .ok ⟨true, 3, 2⟩ :=
  c2_found_match_returns_true
    ⟨"e1", "a1", "s1", some 100, "t", "d"⟩
    (fun j => if j = 2 then .rows (some ⟨"e1", "a1", "s1", some (100 + 1/10)⟩)
      else .rows none)
    2 ⟨"e1", "a1", "s1", some (100 + 1/10)⟩ 100 (100 + 1/10)
    (by decide) (by decide) rfl rfl rfl rfl rfl rfl
    (by with_unfolding_all decide)

/-- C3: when a poll attempt's query raises the store's `NotFound`
("table or dataset not found"), verification returns `False` on that
attempt — an `.ok` result, so nothing propagates — making no further poll
attempt; a merely absent row instead falls through to sleep and retry. -/
theorem c3_location_not_found_terminal
    (orig : Payload) (store : Nat → QueryOutcome) (k : Nat)
    (hg : POLLING_INTERVAL_SECONDS * k < POLLING_TIMEOUT_SECONDS)
    (hprev : ∀ j, j < k → attemptStep orig (store j) = .ok .continue_)
    (hq : store k = .notFoundExn) :
    verify_event_in_bigquery orig store = .ok ⟨false, k + 1, k⟩
      ∧ attemptStep orig (.rows none) = .ok .continue_ := by
  refine ⟨?_, rfl⟩
  have hk : k < 12 := (loopGuard_iff k).mp hg
  have hstep : attemptStep orig (store k) = .ok (.ret false) := by
    rw [hq]; rfl
  rw [verifyGo_reach orig store k (Nat.le_of_lt hk) hprev,
    show 12 - k = (12 - (k + 1)) + 1 by omega]
  exact verifyGo_ret orig store k (12 - (k + 1)) false hg hstep

/-- Witness for C3: the very first query reports the location missing;
verification returns `False` after one query and no sleep. -/
theorem c3_witness :
    verify_event_in_bigquery ⟨"e1", "a1", "s1", some 100, "t", "d"⟩
        (fun _ => .notFoundExn)
      = .ok ⟨false, 1, 0⟩ :=
  (c3_location_not_found_terminal ⟨"e1", "a1", "s1", some 100, "t", "d"⟩
    (fun _ => .notFoundExn) 0 (by decide) (by decide) rfl).1

/-- C4: a per-attempt query error other than `NotFound` is absorbed by the
generic handler: the attempt neither returns nor propagates, and the loop
re-enters at the next attempt index after the fixed sleep, so such an error
on one attempt never by itself determines the returned boolean. -/
theorem c4_transient_error_absorbed
    (orig : Payload) (store : Nat → QueryOutcome) (k fuel : Nat)
    (hq : store k = .otherExn)
    (hg : POLLING_INTERVAL_SECONDS * k < POLLING_TIMEOUT_SECONDS) :
    attemptStep orig (store k) = .ok .continue_
      ∧ verifyGo orig store k (fuel + 1) = verifyGo orig store (k + 1) fuel := by
  have hstep : attemptStep orig (store k) = .ok .continue_ := by rw [hq]; rfl
  exact ⟨hstep, verifyGo_continue orig store k fuel hg hstep⟩

/-- Witness for C4: a transient error on the first attempt leaves the loop
polling from the second attempt. -/
theorem c4_witness :
    attemptStep ⟨"e1", "a1", "s1", some 100, "t", "d"⟩
        ((fun _ => QueryOutcome.otherExn) 0) = .ok .continue_
      ∧ verifyGo ⟨"e1", "a1", "s1", some 100, "t", "d"⟩ (fun _ => .otherExn) 0 12
        = verifyGo ⟨"e1", "a1", "s1", some 100, "t", "d"⟩ (fun _ => .otherExn) 1 11 :=
  c4_transient_error_absorbed ⟨"e1", "a1", "s1", some 100, "t", "d"⟩
    (fun _ => .otherExn) 0 11 rfl (by decide)

/-- C5: for every payload and every sequence of store responses the
verification function produces a boolean verdict and never propagates an
exception. -/
theorem c5_verify_never_raises (orig : Payload) (store : Nat → QueryOutcome) :
    (∃ r : VerifyResult, verify_event_in_bigquery orig store = .ok r)
      ∧ ∀ e : PyExn, verify_event_in_bigquery orig store ≠ .error e := by
  obtain ⟨r, hr⟩ := verifyGo_isOk orig store maxPollAttempts 0
  have hv : verify_event_in_bigquery orig store = .ok r := hr
  refine ⟨⟨r, hv⟩, fun e he => ?_⟩
  rw [hv] at he
  exact Except.noConfusion he

/-- C6: when no poll attempt ever finds a row and every error is transient,
verification runs the loop to the deadline and returns `False`, having made
exactly `POLLING_TIMEOUT_SECONDS / POLLING_INTERVAL_SECONDS = 12` poll
attempts and as many sleeps. -/
theorem c6_timeout_returns_false
    (orig : Payload) (store : Nat → QueryOutcome)
    (h : ∀ k, k < 12 → store k = .rows none ∨ store k = .otherExn) :
    verify_event_in_bigquery orig store
        = .ok ⟨false, POLLING_TIMEOUT_SECONDS / POLLING_INTERVAL_SECONDS,
            POLLING_TIMEOUT_SECONDS / POLLING_INTERVAL_SECONDS⟩
      ∧ POLLING_TIMEOUT_SECONDS / POLLING_INTERVAL_SECONDS = 12 := by
  have hc : ∀ j, j < 12 → attemptStep orig (store j) = .ok .continue_ := by
    intro j hj
    rcases h j hj with hq | hq <;> rw [hq] <;> rfl
  refine ⟨?_, rfl⟩
  rw [verifyGo_reach orig store 12 (le_refl 12) hc]
  rfl

/-- Witness for C6: a store that never has the row; verification times out
with `False` after 12 attempts. -/
theorem c6_witness :
    verify_event_in_bigquery ⟨"e1", "a1", "s1", some 100, "t", "d"⟩
        (fun _ => .rows none)
      = .ok ⟨false, POLLING_TIMEOUT_SECONDS / POLLING_INTERVAL_SECONDS,
          POLLING_TIMEOUT_SECONDS / POLLING_INTERVAL_SECONDS⟩ :=
  (c6_timeout_returns_false ⟨"e1", "a1", "s1", some 100, "t", "d"⟩
    (fun _ => .rows none) (fun _ _ => Or.inl rfl)).1

/-- C7: the process exit code of a full run is 0 exactly when client
initialization succeeded, publish succeeded, and verification returned
`True`; in every other case — including initialization failure and any
publish exception — it is 1, and no other exit code occurs. -/
theorem c7_exit_code_zero_iff_verify_true
    (ci : InitOutcome) (ch : ChannelBehavior) (orig : Payload)
    (store : Nat → QueryOutcome) :
    (main ci ch orig store = 0 ∨ main ci ch orig store = 1)
      ∧ (main ci ch orig store = 0 ↔
          ci = .ok ∧ (∃ m, publish_event ch = .ok m)
            ∧ ∃ r, verify_event_in_bigquery orig store = .ok r
              ∧ r.result = true) := by
  obtain ⟨r, hr⟩ := verifyGo_isOk orig store maxPollAttempts 0
  have hv : verify_event_in_bigquery orig store = .ok r := hr
  cases ci with
  | fail => exact ⟨Or.inr rfl, by simp [main]⟩
  | ok =>
    cases hp : publish_event ch with
    | error e =>
      refine ⟨Or.inr (by simp [main, hp]), ?_⟩
      simp [main, hp]
    | ok m =>
      by_cases hb : r.result
      · refine ⟨Or.inl (by simp [main, hp, hv, hb]), ?_⟩
        simp only [main, hp, hv, hb]
        simp [hp, hv, hb]
      · refine ⟨Or.inr (by simp [main, hp, hv, hb]), ?_⟩
        simp only [main, hp, hv]
        simp [hp, hv, hb, Bool.not_eq_true]

/-- C8: the acknowledgment wait is bounded by the fixed 30-second ceiling;
when the channel rejects the send or acknowledges only after the ceiling,
`publish_event` raises, and the whole check exits 1 without retrying. -/
theorem c8_publish_failure_aborts (ch : ChannelBehavior)
    (h : ch = .reject
      ∨ ∃ d m, ch = .ack d m ∧ PUBLISH_ACK_TIMEOUT_SECONDS < d) :
    (∃ e, publish_event ch = .error e)
      ∧ (∀ (orig : Payload) (store : Nat → QueryOutcome),
          main .ok ch orig store = 1)
      ∧ PUBLISH_ACK_TIMEOUT_SECONDS = 30 := by
  obtain ⟨e, he⟩ : ∃ e, publish_event ch = .error e := by
    rcases h with h | ⟨d, m, h, hd⟩
    · exact ⟨.googleAPICallError, by rw [h]; rfl⟩
    · refine ⟨.timeoutError, ?_⟩
      rw [h]
      simp [publish_event, Nat.not_le.mpr hd]
  exact ⟨⟨e, he⟩, fun orig store => by simp [main, he], rfl⟩

/-- Witness for C8: an acknowledgment arriving after 31 seconds exceeds the
30-second ceiling and the run exits 1. -/
theorem c8_witness :
    (∃ e, publish_event (.ack 31 "m") = .error e)
      ∧ (∀ (orig : Payload) (store : Nat → QueryOutcome),
          main .ok (.ack 31 "m") orig store = 1)
      ∧ PUBLISH_ACK_TIMEOUT_SECONDS = 30 :=
  c8_publish_failure_aborts (.ack 31 "m")
    (Or.inr ⟨31, "m", rfl, by decide⟩)

/-- C9: two payloads that agree on `event_id`, `agent_id`, `session_id` and
`timestamp` — hence may differ arbitrarily in `event_type` and `data` —
verify identically against any sequence of store responses. -/
theorem c9_event_type_data_noninterference
    (p1 p2 : Payload) (store : Nat → QueryOutcome)
    (he : p1.event_id = p2.event_id) (ha : p1.agent_id = p2.agent_id)
    (hs : p1.session_id = p2.session_id) (ht : p1.timestamp = p2.timestamp) :
    verify_event_in_bigquery p1 store = verify_event_in_bigquery p2 store :=
  verifyGo_congr p1 p2 store he ha hs ht maxPollAttempts 0

/-- Witness for C9: payloads differing only in `event_type` and `data`
verify identically. -/
theorem c9_witness :
    verify_event_in_bigquery
        ⟨"e1", "a1", "s1", some 100, "e2e_test_event", "d1"⟩
        (fun _ => .rows none)
      = verify_event_in_bigquery
        ⟨"e1", "a1", "s1", some 100, "other_event", "d2"⟩
        (fun _ => .rows none) :=
  c9_event_type_data_noninterference
    ⟨"e1", "a1", "s1", some 100, "e2e_test_event", "d1"⟩
    ⟨"e1", "a1", "s1", some 100, "other_event", "d2"⟩
    (fun _ => .rows none) rfl rfl rfl rfl

/-- C10: when every poll attempt finds a row but evaluating the comparison
raises — the original timestamp fails to parse or the retrieved row lacks a
usable timestamp — each attempt is absorbed as transient and the loop polls
on to the deadline, returning `False` after all 12 attempts instead of
returning `False` on the first found row. -/
theorem c10_comparison_exception_continues_polling
    (orig : Payload) (store : Nat → QueryOutcome)
    (h : ∀ j, j < 12 → ∃ row, store j = .rows (some row)
      ∧ (orig.timestamp = none ∨ row.timestamp = none)) :
    (∀ j, j < 12 → attemptStep orig (store j) = .ok .continue_)
      ∧ verify_event_in_bigquery orig store = .ok ⟨false, 12, 12⟩ := by
  have hc : ∀ j, j < 12 → attemptStep orig (store j) = .ok .continue_ := by
    intro j hj
    obtain ⟨row, hq, hbad⟩ := h j hj
    rw [hq]
    exact attemptStep_found_raise orig row hbad
  refine ⟨hc, ?_⟩
  rw [verifyGo_reach orig store 12 (le_refl 12) hc]
  rfl

/-- Witness for C10: every attempt finds a row whose timestamp is missing;
verification still polls to the deadline and returns `False`. -/
theorem c10_witness :
    verify_event_in_bigquery ⟨"e1", "a1", "s1", some 100, "t", "d"⟩
        (fun _ => .rows (some ⟨"e1", "a1", "s1", none⟩))
      = .ok ⟨false, 12, 12⟩ :=
  (c10_comparison_exception_continues_polling
    ⟨"e1", "a1", "s1", some 100, "t", "d"⟩
    (fun _ => .rows (some ⟨"e1", "a1", "s1", none⟩))
    (fun _ _ => ⟨⟨"e1", "a1", "s1", none⟩, rfl, Or.inr rfl⟩)).2

end E2E
